import Mathlib

/-!
Verification of the data acquisition and caching subsystem of the
Weather-App repository (single source file `app.py`), embedded shallowly:
Python floats are modelled as `ℚ`, Python strings as `String`, the working
directory as an association list of file names to file contents, and
`np.random.uniform` as an explicit sampling function passed in as a
parameter together with the hypothesis that each sample lies in its
requested range.
-/

set_option autoImplicit false

namespace WeatherApp

/-! ## Unit profiles (`app.py` lines 44-46) -/

/-- The three unit strings `get_weather_data` derives from `unit_system`. -/
structure UnitProfile where
  temperature_unit : String
  wind_speed_unit : String
  precipitation_unit : String
  deriving DecidableEq, Repr

/-- Python `temp_unit = "fahrenheit" if unit_system == "imperial" else "celsius"`,
and likewise for wind and precipitation (`app.py` lines 44-46).  Note the
code branches only on equality with `"imperial"`: every other string,
valid or not, takes the `else` branch. -/
def resolveUnits (unit_system : String) : UnitProfile :=
  { temperature_unit := if unit_system = "imperial" then "fahrenheit" else "celsius"
    wind_speed_unit := if unit_system = "imperial" then "mph" else "kmh"
    precipitation_unit := if unit_system = "imperial" then "inch" else "mm" }

/-- The imperial profile: °F, mph, inch. -/
def imperialProfile : UnitProfile :=
  { temperature_unit := "fahrenheit", wind_speed_unit := "mph", precipitation_unit := "inch" }

/-- The metric profile: °C, km/h, mm. -/
def metricProfile : UnitProfile :=
  { temperature_unit := "celsius", wind_speed_unit := "kmh", precipitation_unit := "mm" }

/-! ## Daily records

One row of the daily dataframe: the `date` column is modelled as a day
number (an integer), the eleven numeric columns as rationals. -/

structure DailyRow where
  date : ℤ
  temperature_2m_max : ℚ
  temperature_2m_min : ℚ
  temperature_2m_mean : ℚ
  wind_speed_10m_mean : ℚ
  wind_speed_10m_min : ℚ
  wind_speed_10m_max : ℚ
  relative_humidity_2m_mean : ℚ
  relative_humidity_2m_max : ℚ
  relative_humidity_2m_min : ℚ
  precipitation_sum : ℚ
  rain_sum : ℚ
  deriving DecidableEq, Repr

instance : Inhabited DailyRow :=
  ⟨{ date := 0, temperature_2m_max := 0, temperature_2m_min := 0, temperature_2m_mean := 0,
     wind_speed_10m_mean := 0, wind_speed_10m_min := 0, wind_speed_10m_max := 0,
     relative_humidity_2m_mean := 0, relative_humidity_2m_max := 0,
     relative_humidity_2m_min := 0, precipitation_sum := 0, rain_sum := 0 }⟩

/-- One row of the hourly dataframe: a timestamp (seconds) and a raw
temperature value. -/
structure HourlyRow where
  date : ℤ
  temperature_2m : ℚ
  deriving DecidableEq, Repr

/-! ## Synthetic fallback ranges (`app.py` lines 148-160) -/

/-- Python `temp_max_range`: `(60, 90)` for imperial, `(15, 32)` otherwise. -/
def tempMaxRange (unit_system : String) : ℚ × ℚ :=
  if unit_system = "imperial" then (60, 90) else (15, 32)

/-- Python `temp_min_range`: `(40, 70)` for imperial, `(4, 21)` otherwise. -/
def tempMinRange (unit_system : String) : ℚ × ℚ :=
  if unit_system = "imperial" then (40, 70) else (4, 21)

/-- Python `temp_mean_range`: `(50, 80)` for imperial, `(10, 27)` otherwise. -/
def tempMeanRange (unit_system : String) : ℚ × ℚ :=
  if unit_system = "imperial" then (50, 80) else (10, 27)

/-- Python `wind_range`: `(5, 20)` for imperial, `(8, 32)` otherwise. -/
def windRange (unit_system : String) : ℚ × ℚ :=
  if unit_system = "imperial" then (5, 20) else (8, 32)

/-- Python `precip_range`: `(0, 1)` for imperial, `(0, 25)` otherwise. -/
def precipRange (unit_system : String) : ℚ × ℚ :=
  if unit_system = "imperial" then (0, 1) else (0, 25)

/-- The dummy-data date list (`app.py` lines 144-146):
`[today - timedelta(days=i) for i in range(31, 0, -1)]` followed by
`[today + timedelta(days=i) for i in range(7)]`. -/
def dummyDates (today : ℤ) : List ℤ :=
  ((List.range 31).map fun j : ℕ => today - ((31 : ℤ) - (j : ℤ))) ++
    ((List.range 7).map fun j : ℕ => today + (j : ℤ))

/-- A random source standing in for `np.random.uniform`: argument 1 is the
field index (the eleven `np.random.uniform` calls in source order),
argument 2 the row index within that call's array, then the low and high
bounds passed to `np.random.uniform`. -/
def RandSource : Type := Nat → Nat → ℚ → ℚ → ℚ

/-- A random source is valid when every sample lies within the requested
range (for `np.random.uniform(lo, hi, n)` each sample lies in `[lo, hi)`,
hence also in the closed range assumed here). -/
def ValidRand (rand : RandSource) : Prop :=
  ∀ f i lo hi, lo ≤ hi → lo ≤ rand f i lo hi ∧ rand f i lo hi ≤ hi

/-- The dummy dataframe built in the `except` branch of `get_weather_data`
(`app.py` lines 162-176): one row per date of `dummyDates today`, each of
the eleven numeric fields drawn by its own `np.random.uniform` call and
left unrounded. -/
def dummyDaily (unit_system : String) (today : ℤ) (rand : RandSource) : List DailyRow :=
  let dates := dummyDates today
  (List.range dates.length).map fun i =>
    { date := dates.getD i 0
      temperature_2m_max := rand 0 i (tempMaxRange unit_system).1 (tempMaxRange unit_system).2
      temperature_2m_min := rand 1 i (tempMinRange unit_system).1 (tempMinRange unit_system).2
      temperature_2m_mean := rand 2 i (tempMeanRange unit_system).1 (tempMeanRange unit_system).2
      wind_speed_10m_mean := rand 3 i (windRange unit_system).1 (windRange unit_system).2
      wind_speed_10m_min := rand 4 i 0 (windRange unit_system).1
      wind_speed_10m_max := rand 5 i (windRange unit_system).1 ((windRange unit_system).2 * (3 / 2))
      relative_humidity_2m_mean := rand 6 i 60 90
      relative_humidity_2m_max := rand 7 i 70 100
      relative_humidity_2m_min := rand 8 i 40 70
      precipitation_sum := rand 9 i 0 (precipRange unit_system).2
      rain_sum := rand 10 i 0 ((precipRange unit_system).2 * (4 / 5)) }

/-- Every field of a row lies within the range its `np.random.uniform`
call was given — the declared unit-specific ranges of the fallback. -/
def RowInRanges (unit_system : String) (r : DailyRow) : Prop :=
  (tempMaxRange unit_system).1 ≤ r.temperature_2m_max ∧
    r.temperature_2m_max ≤ (tempMaxRange unit_system).2 ∧
  (tempMinRange unit_system).1 ≤ r.temperature_2m_min ∧
    r.temperature_2m_min ≤ (tempMinRange unit_system).2 ∧
  (tempMeanRange unit_system).1 ≤ r.temperature_2m_mean ∧
    r.temperature_2m_mean ≤ (tempMeanRange unit_system).2 ∧
  (windRange unit_system).1 ≤ r.wind_speed_10m_mean ∧
    r.wind_speed_10m_mean ≤ (windRange unit_system).2 ∧
  0 ≤ r.wind_speed_10m_min ∧ r.wind_speed_10m_min ≤ (windRange unit_system).1 ∧
  (windRange unit_system).1 ≤ r.wind_speed_10m_max ∧
    r.wind_speed_10m_max ≤ (windRange unit_system).2 * (3 / 2) ∧
  60 ≤ r.relative_humidity_2m_mean ∧ r.relative_humidity_2m_mean ≤ 90 ∧
  70 ≤ r.relative_humidity_2m_max ∧ r.relative_humidity_2m_max ≤ 100 ∧
  40 ≤ r.relative_humidity_2m_min ∧ r.relative_humidity_2m_min ≤ 70 ∧
  0 ≤ r.precipitation_sum ∧ r.precipitation_sum ≤ (precipRange unit_system).2 ∧
  0 ≤ r.rain_sum ∧ r.rain_sum ≤ (precipRange unit_system).2 * (4 / 5)

instance (unit_system : String) (r : DailyRow) : Decidable (RowInRanges unit_system r) := by
  unfold RowInRanges
  infer_instance

/-! ## Rounding (`np.round(_, 2)`, `app.py` lines 91-121) -/

/-- Round a rational to the nearest integer, ties to even —
the rounding `np.round` applies. -/
def roundHalfEven (q : ℚ) : ℤ :=
  if q - ⌊q⌋ < 1 / 2 then ⌊q⌋
  else if q - ⌊q⌋ > 1 / 2 then ⌊q⌋ + 1
  else if ⌊q⌋ % 2 = 0 then ⌊q⌋ else ⌊q⌋ + 1

/-- Python `np.round(x, 2)`: round to 2 decimal places. -/
def round2 (q : ℚ) : ℚ := (roundHalfEven (q * 100) : ℚ) / 100

/-- A value carries at most 2 decimal places: it is an integer number of
hundredths. -/
def Is2dp (q : ℚ) : Prop := ∃ n : ℤ, q = (n : ℚ) / 100

/-! ## Decoding the provider's columnar payload (`app.py` lines 80-135) -/

/-- The daily block of a provider response: start time, end time and
interval in seconds, plus one value array per requested daily variable,
in the order of `params["daily"]`. -/
structure RawDaily where
  time : ℤ
  timeEnd : ℤ
  interval : ℤ
  temperature_2m_max : List ℚ
  temperature_2m_min : List ℚ
  temperature_2m_mean : List ℚ
  wind_speed_10m_mean : List ℚ
  wind_speed_10m_min : List ℚ
  wind_speed_10m_max : List ℚ
  relative_humidity_2m_mean : List ℚ
  relative_humidity_2m_max : List ℚ
  relative_humidity_2m_min : List ℚ
  precipitation_sum : List ℚ
  rain_sum : List ℚ
  deriving DecidableEq, Repr

/-- The hourly block of a provider response. -/
structure RawHourly where
  time : ℤ
  timeEnd : ℤ
  interval : ℤ
  temperature_2m : List ℚ
  deriving DecidableEq, Repr

/-- Number of points of `pd.date_range(start, end, freq=interval,
inclusive="left")`: the number of `k ≥ 0` with `start + k·interval < end`. -/
def rangeCount (t te iv : ℤ) : ℕ :=
  if iv ≤ 0 then 0 else ((te - t).toNat + (iv.toNat - 1)) / iv.toNat

/-- The date axis `pd.date_range(..., inclusive="left")` builds. -/
def dateRangeLeft (t te iv : ℤ) : List ℤ :=
  (List.range (rangeCount t te iv)).map fun k : ℕ => t + (k : ℤ) * iv

/-- Decode failures.  In the source a size mismatch surfaces as the
`ValueError` that `pd.DataFrame(data=...)` raises when the column arrays
do not all share the length of the date axis. -/
inductive DecodeError
  | decodeMismatch
  deriving DecidableEq, Repr

/-- Decode of the daily block (`app.py` lines 80-123): build the date
axis, require every value array to have its length, and emit one row per
date with each numeric field rounded to 2 decimal places.  On a length
mismatch `pd.DataFrame` raises before any row exists, so no partial
records are produced. -/
def decodeDaily (rd : RawDaily) : Except DecodeError (List DailyRow) :=
  if rd.temperature_2m_max.length = (dateRangeLeft rd.time rd.timeEnd rd.interval).length ∧
      rd.temperature_2m_min.length = (dateRangeLeft rd.time rd.timeEnd rd.interval).length ∧
      rd.temperature_2m_mean.length = (dateRangeLeft rd.time rd.timeEnd rd.interval).length ∧
      rd.wind_speed_10m_mean.length = (dateRangeLeft rd.time rd.timeEnd rd.interval).length ∧
      rd.wind_speed_10m_min.length = (dateRangeLeft rd.time rd.timeEnd rd.interval).length ∧
      rd.wind_speed_10m_max.length = (dateRangeLeft rd.time rd.timeEnd rd.interval).length ∧
      rd.relative_humidity_2m_mean.length =
        (dateRangeLeft rd.time rd.timeEnd rd.interval).length ∧
      rd.relative_humidity_2m_max.length =
        (dateRangeLeft rd.time rd.timeEnd rd.interval).length ∧
      rd.relative_humidity_2m_min.length =
        (dateRangeLeft rd.time rd.timeEnd rd.interval).length ∧
      rd.precipitation_sum.length = (dateRangeLeft rd.time rd.timeEnd rd.interval).length ∧
      rd.rain_sum.length = (dateRangeLeft rd.time rd.timeEnd rd.interval).length then
    .ok ((List.range (dateRangeLeft rd.time rd.timeEnd rd.interval).length).map fun i =>
      { date := (dateRangeLeft rd.time rd.timeEnd rd.interval).getD i 0
        temperature_2m_max := round2 (rd.temperature_2m_max.getD i 0)
        temperature_2m_min := round2 (rd.temperature_2m_min.getD i 0)
        temperature_2m_mean := round2 (rd.temperature_2m_mean.getD i 0)
        wind_speed_10m_mean := round2 (rd.wind_speed_10m_mean.getD i 0)
        wind_speed_10m_min := round2 (rd.wind_speed_10m_min.getD i 0)
        wind_speed_10m_max := round2 (rd.wind_speed_10m_max.getD i 0)
        relative_humidity_2m_mean := round2 (rd.relative_humidity_2m_mean.getD i 0)
        relative_humidity_2m_max := round2 (rd.relative_humidity_2m_max.getD i 0)
        relative_humidity_2m_min := round2 (rd.relative_humidity_2m_min.getD i 0)
        precipitation_sum := round2 (rd.precipitation_sum.getD i 0)
        rain_sum := round2 (rd.rain_sum.getD i 0) })
  else .error .decodeMismatch

/-- Decode of the hourly block (`app.py` lines 125-135): the temperature
array is copied as-is, without rounding. -/
def decodeHourly (rh : RawHourly) : Except DecodeError (List HourlyRow) :=
  if rh.temperature_2m.length = (dateRangeLeft rh.time rh.timeEnd rh.interval).length then
    .ok ((List.range (dateRangeLeft rh.time rh.timeEnd rh.interval).length).map fun i =>
      { date := (dateRangeLeft rh.time rh.timeEnd rh.interval).getD i 0
        temperature_2m := rh.temperature_2m.getD i 0 })
  else .error .decodeMismatch

/-! ## Cache store: the working directory as a name-addressed file map -/

/-- Contents of a cache file. -/
inductive FileData
  | daily (rows : List DailyRow)
  | hourly (rows : List HourlyRow)
  deriving DecidableEq, Repr

/-- The working directory: file names mapped to contents. -/
def FS : Type := List (String × FileData)

/-- Python `to_csv(name)`: write the file, replacing any previous file of the
same name. -/
def saveFile (name : String) (content : FileData) (fs : FS) : FS :=
  (name, content) :: fs.filter fun e => e.1 != name

/-- Python `read_csv(name)` / `os.path.exists(name)` support: look the name up. -/
def loadFile (name : String) (fs : FS) : Option FileData :=
  (List.find? (fun e => e.1 == name) fs).map fun e => e.2

/-- Python `os.path.exists(name)`. -/
def existsFile (name : String) (fs : FS) : Bool :=
  (loadFile name fs).isSome

/-- Python `f"{unit_system}_daily_data_{today}.csv"` (`app.py` lines 139, 180,
192, 692, 698). -/
def dailyFileName (unit_system todayS : String) : String :=
  unit_system ++ "_daily_data_" ++ todayS ++ ".csv"

/-- Python `f"{unit_system}_hourly_data_{today}.csv"` (`app.py` lines 138, 205,
642, 647, 692, 700). -/
def hourlyFileName (unit_system todayS : String) : String :=
  unit_system ++ "_hourly_data_" ++ todayS ++ ".csv"

/-- The cache load of `update_dashboard` (`app.py` line 698):
`pd.read_csv(f"{unit_system}_daily_data_{today}.csv")`. -/
def loadDailyDash (unit_system todayS : String) (fs : FS) : Option (List DailyRow) :=
  match loadFile (dailyFileName unit_system todayS) fs with
  | some (.daily rows) => some rows
  | _ => none

/-- The cache load of `update_dashboard` (`app.py` line 700):
`pd.read_csv(f"{unit_system}_hourly_data_{today}.csv")`. -/
def loadHourlyDash (unit_system todayS : String) (fs : FS) : Option (List HourlyRow) :=
  match loadFile (hourlyFileName unit_system todayS) fs with
  | some (.hourly rows) => some rows
  | _ => none

/-- The module-level cache check (`app.py` lines 220-222):
`os.path.exists(f"daily_data_{today}.csv") and
os.path.exists(f"hourly_data_{today}.csv")` — note the file names carry
no unit-system component. -/
def startupCacheHit (todayS : String) (fs : FS) : Bool :=
  existsFile ("daily_data_" ++ todayS ++ ".csv") fs &&
    existsFile ("hourly_data_" ++ todayS ++ ".csv") fs

/-- The cache check of `update_dashboard` (`app.py` line 692), keyed by
unit system, granularity and today's date. -/
def dashboardCacheHit (unit_system todayS : String) (fs : FS) : Bool :=
  existsFile (dailyFileName unit_system todayS) fs &&
    existsFile (hourlyFileName unit_system todayS) fs

/-! ## `get_weather_data` (`app.py` lines 27-182)

State passing: the function takes the fetch outcome (the result of
`openmeteo.weather_api`), the random source, and the working directory;
it returns the new directory and either the two dataframes or the Python
error the call raises.  `hourly_dataframe` is assigned inside the `try`
block only, which makes it local to the whole function; when control
reaches `return daily_dataframe, hourly_dataframe` through the `except`
branch the name is unbound and the `return` raises `UnboundLocalError`. -/

/-- Errors `get_weather_data` can raise past its boundary. -/
inductive PyError
  | unboundLocalHourly
  deriving DecidableEq, Repr

/-- The `except` branch (`app.py` lines 141-180) continued by the
`return` of line 182: synthesize the dummy daily dataframe, save it
under today's daily file name, then fail at the `return` because
`hourly_dataframe` was never assigned on this path. -/
def exceptBranch (unit_system todayS : String) (today : ℤ) (rand : RandSource) (fs : FS) :
    FS × Except PyError (List DailyRow × List HourlyRow) :=
  let dd := dummyDaily unit_system today rand
  (saveFile (dailyFileName unit_system todayS) (.daily dd) fs, .error .unboundLocalHourly)

/-- Python `get_weather_data` (`app.py` lines 27-182).  On a successful fetch
and decode, both dataframes are saved (hourly first, line 138, then
daily, line 139) and returned; any exception inside the `try` — the
network call failing or either `pd.DataFrame` construction raising on a
column-length mismatch — lands in the `except` branch. -/
def getWeatherData (unit_system todayS : String) (today : ℤ)
    (outcome : Except Unit (RawDaily × RawHourly)) (rand : RandSource) (fs : FS) :
    FS × Except PyError (List DailyRow × List HourlyRow) :=
  match outcome with
  | .error _ => exceptBranch unit_system todayS today rand fs
  | .ok (rd, rh) =>
    match decodeDaily rd, decodeHourly rh with
    | .ok dd, .ok hd =>
      let fs1 := saveFile (hourlyFileName unit_system todayS) (.hourly hd) fs
      let fs2 := saveFile (dailyFileName unit_system todayS) (.daily dd) fs1
      (fs2, .ok (dd, hd))
    | _, _ => exceptBranch unit_system todayS today rand fs

/-! ## Retry policy -/

/-- Result of a provider fetch after the retry loop. -/
inductive FetchResult (A : Type)
  | ok (a : A)
  | providerUnavailable
  deriving DecidableEq, Repr

/-- The backoff delay before the retry following failed attempt `k`:
base factor `0.2`, doubling. -/
def backoffDelay (k : ℕ) : ℚ := (1 / 5) * 2 ^ k

/-- Modelled from the spec: the retry loop itself lives in the
third-party `retry_requests`/`urllib3` stack and is only configured by
this repository (`app.py` line 20: `retry(cache_session, retries=5,
backoff_factor=0.2)`); the loop is not part of the source tree.  Per
spec §4.2 it makes up to the given number of attempts, sleeping
`backoffDelay k` between failed attempt `k` and the next attempt, and
reports `providerUnavailable` on exhaustion.  The transport maps an
attempt index to `some` response or `none` (failure).  Returns the
result, the number of attempts made, and the list of backoff sleeps. -/
def fetchRetry {A : Type} (transport : ℕ → Option A) :
    ℕ → ℕ → FetchResult A × ℕ × List ℚ
  | 0, used => (.providerUnavailable, used, [])
  | n + 1, used =>
    match transport used with
    | some a => (.ok a, used + 1, [])
    | none =>
      match n with
      | 0 => (.providerUnavailable, used + 1, [])
      | m + 1 =>
        let r := fetchRetry transport (m + 1) (used + 1)
        (r.1, r.2.1, backoffDelay used :: r.2.2)

/-- Modelled from the spec: `fetch` with the retry budget of 5 attempts
configured at `app.py` line 20. -/
def fetchFiveAttempts {A : Type} (transport : ℕ → Option A) :
    FetchResult A × ℕ × List ℚ :=
  fetchRetry transport 5 0

/-! ## Cache janitor (`cleanup_old_data_files`, `app.py` lines 186-215)

The janitor works purely on file names: `file.split("_")[3].split(".")[0]`
is parsed with `datetime.strptime(_, "%Y-%m-%d")` and the file is removed
when the parsed date is strictly before today.  File names are modelled
as `String`, Python's `str.split` on a single-character separator as
`splitOnC` over the character list. -/

/-- Python's `str.split(sep)` for a one-character separator, over the
character list: `"".split() = [""]`, and each occurrence of the
separator starts a new group. -/
def splitOnC (c : Char) : List Char → List (List Char)
  | [] => [[]]
  | x :: xs =>
    if x = c then [] :: splitOnC c xs
    else
      match splitOnC c xs with
      | [] => [[x]]
      | g :: gs => (x :: g) :: gs

/-- Python `str.split(sep)` on `String`s. -/
def pySplit (c : Char) (s : String) : List String :=
  (splitOnC c s.data).map fun l => String.mk l

/-- A calendar date as `datetime.date` holds it. -/
structure Date where
  year : ℕ
  month : ℕ
  day : ℕ
  deriving DecidableEq, Repr

/-- Python `datetime.date` ordering: lexicographic on (year, month, day). -/
def dateLtB (a b : Date) : Bool :=
  decide (a.year < b.year ∨ (a.year = b.year ∧
    (a.month < b.month ∨ (a.month = b.month ∧ a.day < b.day))))

/-- Gregorian leap-year rule, as the `datetime` module applies it. -/
def isLeap (y : ℕ) : Bool :=
  (y % 4 == 0 && y % 100 != 0) || y % 400 == 0

/-- Days in a month, as `datetime` validates them. -/
def daysInMonth (y m : ℕ) : ℕ :=
  if m = 2 then (if isLeap y then 29 else 28)
  else if m = 4 ∨ m = 6 ∨ m = 9 ∨ m = 11 then 30
  else 31

/-- The field ranges `datetime.date` accepts (`MINYEAR = 1`,
`MAXYEAR = 9999`, day checked against the month). -/
def validDateB (y m d : ℕ) : Bool :=
  decide (1 ≤ y ∧ y ≤ 9999 ∧ 1 ≤ m ∧ m ≤ 12 ∧ 1 ≤ d ∧ d ≤ daysInMonth y m)

/-- Numeric value of a digit character. -/
def digitVal (c : Char) : ℕ := c.toNat - 48

/-- Parse a non-empty all-digit character list as a decimal number. -/
def parseNatDigits (l : List Char) : Option ℕ :=
  if !l.isEmpty && l.all Char.isDigit then
    some (l.foldl (fun a c => a * 10 + digitVal c) 0)
  else none

/-- Python `datetime.strptime(s, "%Y-%m-%d").date()`: split on `-`, expect
three numeric fields, validate their ranges. -/
def parseDate (s : String) : Option Date :=
  match pySplit '-' s with
  | [ys, ms, ds] =>
    match parseNatDigits ys.data, parseNatDigits ms.data, parseNatDigits ds.data with
    | some y, some m, some d => if validDateB y m d then some ⟨y, m, d⟩ else none
    | _, _, _ => none
  | _ => none

/-- Python `file.split("_")[3].split(".")[0]` (`app.py` lines 195-197): Python
raises `IndexError` (caught by the per-file handler) when the split has
fewer than four parts, so the extraction is partial; the second `[0]`
always exists. -/
def fileDatePart (f : String) : Option String :=
  match (pySplit '_' f).get? 3 with
  | none => none
  | some p => some ((pySplit '.' p).getD 0 "")

/-- The fetch date the janitor recovers from a file name, when the
extraction and `strptime` both succeed. -/
def parsedFileDate (f : String) : Option Date :=
  (fileDatePart f).bind parseDate

/-- Boolean list-versus-list leading-segment test, used to express glob
matching. -/
def isPre : List Char → List Char → Bool
  | [], _ => true
  | _ :: _, [] => false
  | a :: as, b :: bs => a == b && isPre as bs

/-- Python `glob.glob(pat)` membership for a pattern of the shape
`<stem>*<ext>`: the name starts with the stem, ends with the extension,
and is long enough for the two not to overlap. -/
def globMatch (stem ext : List Char) (f : String) : Bool :=
  decide (stem.length + ext.length ≤ f.data.length) &&
    isPre stem f.data && isPre ext.reverse f.data.reverse

/-- Membership in `glob.glob(f"{unit}_{gran}_data_*.csv")`
(`app.py` lines 192, 205). -/
def matchesPattern (unit gran : String) (f : String) : Bool :=
  globMatch (unit ++ "_" ++ gran ++ "_data_").data ".csv".data f

/-- The unit systems the janitor loops over (`app.py` line 191). -/
def unitList : List String := ["imperial", "metric"]

/-- The two granularities swept inside the unit loop. -/
def granList : List String := ["daily", "hourly"]

/-- Python `cleanup_old_data_files` removes a file iff some `(unit, gran)` glob
matches it, its date parses, and the parsed date is strictly before
today; a parse failure is caught and the file is skipped. -/
def deletedByCleanup (todayD : Date) (f : String) : Bool :=
  (unitList.any fun u => granList.any fun g => matchesPattern u g f) &&
    match parsedFileDate f with
    | some d => dateLtB d todayD
    | none => false

/-- The directory contents surviving `cleanup_old_data_files()`
(`app.py` lines 186-215), `todayD` standing for `datetime.now().date()`. -/
def cleanupOldDataFiles (todayD : Date) (fs : List String) : List String :=
  fs.filter fun f => !deletedByCleanup todayD f

/-! ## Encoding a date into a file name (`f"..._{today}.csv"`)

Python's `str(date)` is `"%04d-%02d-%02d" % (y, m, d)`. -/

/-- The character of a digit. -/
def digitChar (k : ℕ) : Char := Char.ofNat (48 + k)

/-- Decimal digits of `n`, most significant first, with explicit fuel so
that the definition is structural and evaluates by `decide`. -/
def natDigitsFuel : ℕ → ℕ → List ℕ
  | 0, _ => []
  | fuel + 1, n => if n < 10 then [n] else natDigitsFuel fuel (n / 10) ++ [n % 10]

/-- Decimal digits of `n`, most significant first. -/
def natDigits (n : ℕ) : List ℕ := natDigitsFuel (n + 1) n

/-- Python `"%0<width>d" % n`: decimal digits left-padded with zeros. -/
def padNum (width n : ℕ) : List Char :=
  let ds := (natDigits n).map digitChar
  List.replicate (width - ds.length) '0' ++ ds

/-- The characters of `str(date)`: `"%04d-%02d-%02d"`. -/
def dateChars (d : Date) : List Char :=
  padNum 4 d.year ++ '-' :: (padNum 2 d.month ++ '-' :: padNum 2 d.day)

/-- Python `str(date)`. -/
def dateToString (d : Date) : String := String.mk (dateChars d)

/-- The cache file name `f"{unit}_{gran}_data_{date}.csv"` carrying an
encoded fetch date. -/
def mkCacheName (unit gran : String) (d : Date) : String :=
  unit ++ "_" ++ gran ++ "_data_" ++ dateToString d ++ ".csv"

/-! ## Lemmas: `str.split` -/

theorem splitOnC_no_sep (c : Char) (l : List Char) (h : ∀ x ∈ l, x ≠ c) :
    splitOnC c l = [l] := by
  induction l with
  | nil => rfl
  | cons x xs ih =>
    have hx : ¬ x = c := h x (by simp)
    have ihx := ih fun y hy => h y (by simp [hy])
    simp [splitOnC, hx, ihx]

theorem splitOnC_append (c : Char) (xs ys : List Char) (h : ∀ x ∈ xs, x ≠ c) :
    splitOnC c (xs ++ c :: ys) = xs :: splitOnC c ys := by
  induction xs with
  | nil => simp [splitOnC]
  | cons x xs ih =>
    have hx : ¬ x = c := h x (by simp)
    have ihx := ih fun y hy => h y (by simp [hy])
    simp [splitOnC, hx, ihx]

/-! ## Lemmas: decimal digits -/

theorem natDigitsFuel_lt (fuel : ℕ) : ∀ n d, d ∈ natDigitsFuel fuel n → d < 10 := by
  induction fuel with
  | zero => intro n d hd; simp [natDigitsFuel] at hd
  | succ fuel ih =>
    intro n d hd
    by_cases hn : n < 10
    · simp [natDigitsFuel, hn] at hd
      omega
    · simp [natDigitsFuel, hn] at hd
      rcases hd with hd | hd
      · exact ih _ _ hd
      · omega

theorem natDigits_ne_nil (n : ℕ) : natDigits n ≠ [] := by
  by_cases hn : n < 10 <;> simp [natDigits, natDigitsFuel, hn]

theorem foldl_natDigitsFuel (fuel : ℕ) : ∀ n a, n < 10 ^ fuel →
    (natDigitsFuel fuel n).foldl (fun acc d => acc * 10 + d) a =
      a * 10 ^ (natDigitsFuel fuel n).length + n := by
  induction fuel with
  | zero =>
    intro n a h
    interval_cases n
    simp [natDigitsFuel]
  | succ fuel ih =>
    intro n a h
    by_cases hn : n < 10
    · simp [natDigitsFuel, hn]
    · have hdiv : n / 10 < 10 ^ fuel := by
        rw [Nat.div_lt_iff_lt_mul (by norm_num)]
        calc n < 10 ^ (fuel + 1) := h
          _ = 10 ^ fuel * 10 := by ring
      simp only [natDigitsFuel, hn, if_false, List.foldl_append, List.length_append]
      rw [ih _ a hdiv]
      have hm : n / 10 * 10 + n % 10 = n := Nat.div_add_mod' n 10
      calc ((a * 10 ^ (natDigitsFuel fuel (n / 10)).length + n / 10) * 10 + n % 10)
          = a * (10 ^ (natDigitsFuel fuel (n / 10)).length * 10) +
              (n / 10 * 10 + n % 10) := by ring
        _ = a * 10 ^ ((natDigitsFuel fuel (n / 10)).length + [n % 10].length) + n := by
            rw [hm]; simp [pow_succ]

theorem foldl_natDigits (n : ℕ) :
    (natDigits n).foldl (fun acc d => acc * 10 + d) 0 = n := by
  have h : n < 10 ^ (n + 1) :=
    lt_of_lt_of_le (Nat.lt_pow_self (by norm_num) n)
      (Nat.pow_le_pow_right (by norm_num) (Nat.le_succ n))
  simpa using foldl_natDigitsFuel (n + 1) n 0 h

theorem digitVal_digitChar (k : ℕ) (hk : k < 10) : digitVal (digitChar k) = k := by
  interval_cases k <;> decide

theorem isDigit_digitChar (k : ℕ) (hk : k < 10) : (digitChar k).isDigit = true := by
  interval_cases k <;> decide

theorem padNum_isDigit (w n : ℕ) : ∀ c ∈ padNum w n, c.isDigit = true := by
  intro c hc
  simp only [padNum, List.mem_append, List.mem_map] at hc
  rcases hc with hc | ⟨d, hd, rfl⟩
  · rw [List.eq_of_mem_replicate hc]; decide
  · exact isDigit_digitChar d (natDigitsFuel_lt _ _ _ hd)

theorem isDigit_ne_sep (c : Char) (h : c.isDigit = true) :
    c ≠ '-' ∧ c ≠ '_' ∧ c ≠ '.' := by
  refine ⟨?_, ?_, ?_⟩ <;> intro he <;> subst he <;> exact absurd h (by decide)

theorem padNum_ne_nil (w n : ℕ) : padNum w n ≠ [] := by
  unfold padNum
  intro h
  exact natDigits_ne_nil n (List.map_eq_nil_iff.mp (List.append_eq_nil.mp h).2)

theorem foldl_zeros (z : ℕ) :
    (List.replicate z '0').foldl (fun a c => a * 10 + digitVal c) 0 = 0 := by
  induction z with
  | zero => rfl
  | succ z ih => simpa [List.replicate_succ] using ih

theorem parseNatDigits_padNum (w n : ℕ) : parseNatDigits (padNum w n) = some n := by
  have hne : (padNum w n).isEmpty = false := by
    cases hp : padNum w n with
    | nil => exact absurd hp (padNum_ne_nil w n)
    | cons a l => simp
  have hall : (padNum w n).all Char.isDigit = true :=
    List.all_eq_true.mpr (padNum_isDigit w n)
  unfold parseNatDigits
  rw [hne, hall]
  simp only [Bool.not_false, Bool.and_self, if_true, Option.some.injEq]
  unfold padNum
  rw [List.foldl_append, foldl_zeros, List.foldl_map]
  rw [List.foldl_ext (fun a d => a * 10 + digitVal (digitChar d)) (fun a d => a * 10 + d) 0
    (fun a d hd => by simp only [digitVal_digitChar d (natDigitsFuel_lt _ _ _ hd)])]
  exact foldl_natDigits n

/-! ## Lemmas: date round-trip through `str(date)` and `strptime` -/

theorem dateChars_ne_sep (d : Date) : ∀ c ∈ dateChars d, c ≠ '_' ∧ c ≠ '.' := by
  intro c hc
  simp only [dateChars, List.mem_append, List.mem_cons] at hc
  rcases hc with hc | rfl | hc | rfl | hc
  · exact ⟨(isDigit_ne_sep c (padNum_isDigit _ _ c hc)).2.1,
      (isDigit_ne_sep c (padNum_isDigit _ _ c hc)).2.2⟩
  · exact ⟨by decide, by decide⟩
  · exact ⟨(isDigit_ne_sep c (padNum_isDigit _ _ c hc)).2.1,
      (isDigit_ne_sep c (padNum_isDigit _ _ c hc)).2.2⟩
  · exact ⟨by decide, by decide⟩
  · exact ⟨(isDigit_ne_sep c (padNum_isDigit _ _ c hc)).2.1,
      (isDigit_ne_sep c (padNum_isDigit _ _ c hc)).2.2⟩

theorem parseDate_dateToString (d : Date)
    (hd : validDateB d.year d.month d.day = true) :
    parseDate (dateToString d) = some d := by
  have hsplit : splitOnC '-' (dateChars d) =
      [padNum 4 d.year, padNum 2 d.month, padNum 2 d.day] := by
    unfold dateChars
    rw [splitOnC_append '-' (padNum 4 d.year) _
      (fun x hx => (isDigit_ne_sep x (padNum_isDigit _ _ x hx)).1)]
    rw [splitOnC_append '-' (padNum 2 d.month) _
      (fun x hx => (isDigit_ne_sep x (padNum_isDigit _ _ x hx)).1)]
    rw [splitOnC_no_sep '-' (padNum 2 d.day)
      (fun x hx => (isDigit_ne_sep x (padNum_isDigit _ _ x hx)).1)]
  unfold parseDate pySplit
  have hdata : (dateToString d).data = dateChars d := rfl
  rw [hdata, hsplit]
  simp only [List.map_cons, List.map_nil]
  rw [parseNatDigits_padNum, parseNatDigits_padNum, parseNatDigits_padNum]
  simp only [hd, if_true]

theorem isPre_append (p rest : List Char) : isPre p (p ++ rest) = true := by
  induction p with
  | nil => rfl
  | cons a as ih => simp [isPre, ih]

theorem data_mkCacheName (u g : String) (d : Date) :
    (mkCacheName u g d).data =
      u.data ++ '_' :: (g.data ++ '_' :: ('d' :: 'a' :: 't' :: 'a' :: '_' ::
        (dateChars d ++ ['.', 'c', 's', 'v']))) := by
  have e1 : "_".data = ['_'] := rfl
  have e2 : "_data_".data = ['_', 'd', 'a', 't', 'a', '_'] := rfl
  have e3 : ".csv".data = ['.', 'c', 's', 'v'] := rfl
  have e4 : (dateToString d).data = dateChars d := rfl
  unfold mkCacheName
  simp [String.data_append, e1, e2, e3, e4]

theorem parsedFileDate_mkCacheName (u g : String)
    (hu : ∀ c ∈ u.data, c ≠ '_') (hg : ∀ c ∈ g.data, c ≠ '_')
    (d : Date) (hd : validDateB d.year d.month d.day = true) :
    parsedFileDate (mkCacheName u g d) = some d := by
  have hrest : ∀ x ∈ dateChars d ++ ['.', 'c', 's', 'v'], x ≠ '_' := by
    intro x hx
    rcases List.mem_append.mp hx with hx | hx
    · exact (dateChars_ne_sep d x hx).1
    · simp only [List.mem_cons, List.not_mem_nil, or_false] at hx
      rcases hx with rfl | rfl | rfl | rfl <;> decide
  unfold parsedFileDate fileDatePart pySplit
  rw [data_mkCacheName]
  rw [splitOnC_append '_' u.data _ hu]
  rw [splitOnC_append '_' g.data _ hg]
  rw [show ('d' :: 'a' :: 't' :: 'a' :: '_' :: (dateChars d ++ ['.', 'c', 's', 'v'])) =
    ['d', 'a', 't', 'a'] ++ '_' :: (dateChars d ++ ['.', 'c', 's', 'v']) from rfl]
  rw [splitOnC_append '_' ['d', 'a', 't', 'a'] _ (by decide)]
  rw [splitOnC_no_sep '_' _ hrest]
  simp only [List.map_cons, List.map_nil, List.get?]
  rw [splitOnC_append '.' (dateChars d) ['c', 's', 'v']
    (fun x hx => (dateChars_ne_sep d x hx).2)]
  rw [splitOnC_no_sep '.' ['c', 's', 'v'] (by decide)]
  simp only [List.map_cons, List.map_nil, List.getD, Option.getD_some, List.get?,
    Option.some_bind]
  exact parseDate_dateToString d hd

theorem matchesPattern_mkCacheName (u g : String) (d : Date) :
    matchesPattern u g (mkCacheName u g d) = true := by
  have hstem : (mkCacheName u g d).data =
      (u ++ "_" ++ g ++ "_data_").data ++ (dateChars d ++ ['.', 'c', 's', 'v']) := by
    have e1 : "_".data = ['_'] := rfl
    have e2 : "_data_".data = ['_', 'd', 'a', 't', 'a', '_'] := rfl
    rw [data_mkCacheName]
    simp [String.data_append, e1, e2]
  unfold matchesPattern globMatch
  simp only [Bool.and_eq_true, decide_eq_true_eq]
  refine ⟨⟨?_, ?_⟩, ?_⟩
  · rw [hstem]
    simp [List.length_append]
    omega
  · rw [hstem]
    exact isPre_append _ _
  · rw [hstem, List.reverse_append, List.reverse_append]
    rw [show (['.', 'c', 's', 'v'] : List Char).reverse = ['v', 's', 'c', '.'] from rfl]
    rw [List.append_assoc]
    exact isPre_append _ _

theorem deletedByCleanup_mkCacheName (u g : String)
    (hu : u ∈ unitList) (hg : g ∈ granList)
    (hu2 : ∀ c ∈ u.data, c ≠ '_') (hg2 : ∀ c ∈ g.data, c ≠ '_')
    (d todayD : Date) (hd : validDateB d.year d.month d.day = true) :
    deletedByCleanup todayD (mkCacheName u g d) = dateLtB d todayD := by
  unfold deletedByCleanup
  rw [parsedFileDate_mkCacheName u g hu2 hg2 d hd]
  have hany : (unitList.any fun u2 =>
      granList.any fun g2 => matchesPattern u2 g2 (mkCacheName u g d)) = true :=
    List.any_eq_true.mpr
      ⟨u, hu, List.any_eq_true.mpr ⟨g, hg, matchesPattern_mkCacheName u g d⟩⟩
  rw [hany, Bool.true_and]

/-- Claim C3: `cleanup_old_data_files` deletes exactly the cache entries
whose encoded fetch date parses strictly before today: for every unit
system and granularity the janitor sweeps and every valid encoded date,
the entry survives the sweep iff it was present and its date is not
strictly before today — entries dated today or later are never
deleted. -/
theorem cleanup_old_files_exact (u g : String)
    (hu : u = "imperial" ∨ u = "metric") (hg : g = "daily" ∨ g = "hourly")
    (d todayD : Date) (hd : validDateB d.year d.month d.day = true)
    (fs : List String) :
    mkCacheName u g d ∈ cleanupOldDataFiles todayD fs ↔
      mkCacheName u g d ∈ fs ∧ dateLtB d todayD = false := by
  have hu1 : u ∈ unitList := by rcases hu with rfl | rfl <;> simp [unitList]
  have hg1 : g ∈ granList := by rcases hg with rfl | rfl <;> simp [granList]
  have hu2 : ∀ c ∈ u.data, c ≠ '_' := by rcases hu with rfl | rfl <;> decide
  have hg2 : ∀ c ∈ g.data, c ≠ '_' := by rcases hg with rfl | rfl <;> decide
  unfold cleanupOldDataFiles
  rw [List.mem_filter, deletedByCleanup_mkCacheName u g hu1 hg1 hu2 hg2 d todayD hd,
    Bool.not_eq_true']

/-- The spec's staleness example: with entries dated today−2, today−1,
today and today+1 (today = 2026-10-12), the entry dated today−2 survives
the sweep iff it is present and not older than today — which is false,
so it is deleted; instantiates every hypothesis of
`cleanup_old_files_exact` at concrete input. -/
theorem cleanup_old_files_exact_witness :
    mkCacheName "imperial" "daily" ⟨2026, 10, 10⟩ ∈
        cleanupOldDataFiles ⟨2026, 10, 12⟩
          [mkCacheName "imperial" "daily" ⟨2026, 10, 10⟩,
            mkCacheName "imperial" "daily" ⟨2026, 10, 11⟩,
            mkCacheName "imperial" "daily" ⟨2026, 10, 12⟩,
            mkCacheName "imperial" "daily" ⟨2026, 10, 13⟩] ↔
      mkCacheName "imperial" "daily" ⟨2026, 10, 10⟩ ∈
          [mkCacheName "imperial" "daily" ⟨2026, 10, 10⟩,
            mkCacheName "imperial" "daily" ⟨2026, 10, 11⟩,
            mkCacheName "imperial" "daily" ⟨2026, 10, 12⟩,
            mkCacheName "imperial" "daily" ⟨2026, 10, 13⟩] ∧
        dateLtB ⟨2026, 10, 10⟩ ⟨2026, 10, 12⟩ = false :=
  cleanup_old_files_exact "imperial" "daily" (Or.inl rfl) (Or.inl rfl)
    ⟨2026, 10, 10⟩ ⟨2026, 10, 12⟩ (by decide) _

/-! ## Claim C6: unit-system resolution -/

/-- Claim C6 counterexample: the input `"banana"` is neither `imperial`
nor `metric`, yet unit resolution does not fail — `app.py` lines 44-46
branch only on equality with `"imperial"`, so the invalid input yields
the full metric profile instead of an `InvalidUnitSystem` error. -/
theorem resolve_units_no_failure_counterexample :
    "banana" ≠ "imperial" ∧ "banana" ≠ "metric" ∧
      resolveUnits "banana" = metricProfile ∧
      resolveUnits "banana" = resolveUnits "metric" := by
  decide

/-- Claim C6 (amended): unit resolution never fails: every input other
than exactly `"imperial"` — including invalid strings — silently
resolves to the metric profile; for the two valid systems the three unit
fields are the mutually consistent profile of that system (°F/mph/inch
for imperial, °C/kmh/mm for metric). -/
theorem resolve_units_amended (us : String) (h : us ≠ "imperial") :
    resolveUnits us = metricProfile ∧
      resolveUnits "imperial" = imperialProfile ∧
      resolveUnits "metric" = metricProfile := by
  refine ⟨?_, by decide, by decide⟩
  unfold resolveUnits metricProfile
  simp [h]

/-- Witness for `resolve_units_amended` at the concrete invalid input
`"banana"`. -/
theorem resolve_units_amended_witness :
    resolveUnits "banana" = metricProfile ∧
      resolveUnits "imperial" = imperialProfile ∧
      resolveUnits "metric" = metricProfile :=
  resolve_units_amended "banana" (by decide)

/-! ## Claim C4: retry budget and backoff -/

/-- Claim C4: with the configured budget of 5 attempts and exponential
backoff at base factor 0.2 doubling after each failure, a transport that
fails the first 4 calls and succeeds on the 5th makes `fetch` return the
success result after exactly 5 attempts, and a transport that always
fails makes `fetch` stop after exactly 5 attempts with
`providerUnavailable` — the recursion is structurally bounded, so it can
never loop forever.  (The retry loop is modelled from the spec: it lives
in the third-party `retry_requests`/`urllib3` stack, configured at
`app.py` line 20.) -/
theorem fetch_retry_five_attempts {A : Type} (t1 t2 : ℕ → Option A) (a : A)
    (h1 : ∀ k, k < 4 → t1 k = none) (h2 : t1 4 = some a)
    (h3 : ∀ k, t2 k = none) :
    fetchFiveAttempts t1 = (FetchResult.ok a, 5,
        [backoffDelay 0, backoffDelay 1, backoffDelay 2, backoffDelay 3]) ∧
      fetchFiveAttempts t2 = (FetchResult.providerUnavailable, 5,
        [backoffDelay 0, backoffDelay 1, backoffDelay 2, backoffDelay 3]) := by
  have e0 := h1 0 (by norm_num)
  have e1 := h1 1 (by norm_num)
  have e2 := h1 2 (by norm_num)
  have e3 := h1 3 (by norm_num)
  constructor
  · simp [fetchFiveAttempts, fetchRetry, e0, e1, e2, e3, h2]
  · simp [fetchFiveAttempts, fetchRetry, h3]

/-- A fault-injected transport that fails its first 4 calls and answers
on the 5th. -/
def transportFourFailures : ℕ → Option ℕ := fun k => if k = 4 then some 7 else none

/-- Witness for `fetch_retry_five_attempts` at the concrete transports. -/
theorem fetch_retry_five_attempts_witness :
    fetchFiveAttempts transportFourFailures = (FetchResult.ok 7, 5,
        [backoffDelay 0, backoffDelay 1, backoffDelay 2, backoffDelay 3]) ∧
      fetchFiveAttempts (fun _ => (none : Option ℕ)) =
        (FetchResult.providerUnavailable, 5,
          [backoffDelay 0, backoffDelay 1, backoffDelay 2, backoffDelay 3]) :=
  fetch_retry_five_attempts transportFourFailures (fun _ => none) 7
    (fun k hk => by interval_cases k <;> rfl) rfl (fun _ => rfl)

/-! ## Claim C1: behaviour of `get_weather_data` on provider failure -/

/-- Claim C1 (code bug): when the provider fetch fails,
`get_weather_data` does NOT return normally with synthetic data.  The
`except` branch builds and saves the synthetic daily dataframe, but
`hourly_dataframe` — a local of the whole function because it is
assigned inside the `try` block — is never assigned on this path, so
`return daily_dataframe, hourly_dataframe` (`app.py` line 182) raises
`UnboundLocalError` past the function's boundary, for every unit
system. -/
theorem provider_failure_raises (us todayS : String) (today : ℤ)
    (rand : RandSource) (fs : FS) :
    getWeatherData us todayS today (Except.error ()) rand fs =
      (saveFile (dailyFileName us todayS)
          (FileData.daily (dummyDaily us today rand)) fs,
        Except.error PyError.unboundLocalHourly) := rfl

/-! ## Claim C2: the startup cache check -/

/-- Claim C2 (code bug): the module-level load-or-fetch block checks
`daily_data_{today}.csv` / `hourly_data_{today}.csv` (`app.py` lines
220-222), names that carry no unit-system component, while every save
writes `{unit_system}_..._data_{today}.csv`.  With same-day imperial
entries on disk the startup check still reports a miss (so the provider
is fetched), whereas `update_dashboard`'s check against the exact
(unit system, granularity, fetch date) key reports a hit on the same
directory. -/
theorem startup_check_misses_same_day_entries :
    startupCacheHit "2026-10-12"
        [(dailyFileName "imperial" "2026-10-12", FileData.daily []),
          (hourlyFileName "imperial" "2026-10-12", FileData.hourly [])] = false ∧
      dashboardCacheHit "imperial" "2026-10-12"
        [(dailyFileName "imperial" "2026-10-12", FileData.daily []),
          (hourlyFileName "imperial" "2026-10-12", FileData.hourly [])] = true := by
  decide

/-! ## Claims C7 and C10: the synthetic fallback -/

theorem dummyDates_length (today : ℤ) : (dummyDates today).length = 38 := by
  simp only [dummyDates, List.length_append, List.length_map, List.length_range]

theorem dummyDates_getD (today : ℤ) (i : ℕ) (hi : i < 38) :
    (dummyDates today).getD i 0 = today - 31 + i := by
  unfold dummyDates List.getD
  rw [List.get?_eq_getElem?]
  by_cases h : i < 31
  · rw [List.getElem?_append_left (by simpa using h)]
    simp only [List.getElem?_map, List.getElem?_range, h, if_true]
    simp only [Option.map_some', Option.getD_some]
    ring
  · rw [List.getElem?_append_right (by simpa using not_lt.mp h)]
    simp only [List.length_map, List.length_range]
    have h7 : i - 31 < 7 := by omega
    simp only [List.getElem?_map, List.getElem?_range, h7, if_true]
    simp only [Option.map_some', Option.getD_some]
    have h31 : (31 : ℕ) ≤ i := not_lt.mp h
    push_cast [Nat.cast_sub h31]
    ring

theorem dummyDaily_length (us : String) (today : ℤ) (rand : RandSource) :
    (dummyDaily us today rand).length = 38 := by
  simp only [dummyDaily, List.length_map, List.length_range, dummyDates_length]

/-- All the range bounds the synthetic fallback samples within are
well-ordered, for either value of the `unit_system` branch. -/
theorem dummyRanges_le (us : String) :
    (tempMaxRange us).1 ≤ (tempMaxRange us).2 ∧
      (tempMinRange us).1 ≤ (tempMinRange us).2 ∧
      (tempMeanRange us).1 ≤ (tempMeanRange us).2 ∧
      (windRange us).1 ≤ (windRange us).2 ∧
      (0 : ℚ) ≤ (windRange us).1 ∧
      (windRange us).1 ≤ (windRange us).2 * (3 / 2) ∧
      (0 : ℚ) ≤ (precipRange us).2 ∧
      (0 : ℚ) ≤ (precipRange us).2 * (4 / 5) := by
  unfold tempMaxRange tempMinRange tempMeanRange windRange precipRange
  by_cases h : us = "imperial" <;> simp only [h, if_true, if_false] <;> norm_num

theorem dummyDaily_getD (us : String) (today : ℤ) (rand : RandSource)
    (i : ℕ) (hi : i < 38) :
    (dummyDaily us today rand).getD i default =
      { date := (dummyDates today).getD i 0
        temperature_2m_max := rand 0 i (tempMaxRange us).1 (tempMaxRange us).2
        temperature_2m_min := rand 1 i (tempMinRange us).1 (tempMinRange us).2
        temperature_2m_mean := rand 2 i (tempMeanRange us).1 (tempMeanRange us).2
        wind_speed_10m_mean := rand 3 i (windRange us).1 (windRange us).2
        wind_speed_10m_min := rand 4 i 0 (windRange us).1
        wind_speed_10m_max := rand 5 i (windRange us).1 ((windRange us).2 * (3 / 2))
        relative_humidity_2m_mean := rand 6 i 60 90
        relative_humidity_2m_max := rand 7 i 70 100
        relative_humidity_2m_min := rand 8 i 40 70
        precipitation_sum := rand 9 i 0 (precipRange us).2
        rain_sum := rand 10 i 0 ((precipRange us).2 * (4 / 5)) } := by
  unfold dummyDaily List.getD
  rw [List.get?_eq_getElem?]
  simp only [List.getElem?_map, List.getElem?_range, dummyDates_length, hi, if_true,
    Option.map_some', Option.getD_some]

/-- Claim C7: when the synthetic fallback runs for a requested unit
system, the resulting daily record set has exactly 38 rows — 31 past
days plus the 7-day forecast horizon — one per contiguous calendar day
(row `i` carries date `today − 31 + i`), and every field of every row
lies within its declared unit-specific range. -/
theorem dummy_daily_window_and_ranges (us : String) (today : ℤ)
    (rand : RandSource) (hr : ValidRand rand) :
    (dummyDaily us today rand).length = 38 ∧
      ∀ i, i < 38 →
        ((dummyDaily us today rand).getD i default).date = today - 31 + i ∧
          RowInRanges us ((dummyDaily us today rand).getD i default) := by
  refine ⟨dummyDaily_length us today rand, fun i hi => ?_⟩
  rw [dummyDaily_getD us today rand i hi]
  refine ⟨dummyDates_getD today i hi, ?_⟩
  obtain ⟨h1, h2, h3, h4, h5, h6, h10, h11⟩ := dummyRanges_le us
  exact ⟨(hr 0 i _ _ h1).1, (hr 0 i _ _ h1).2, (hr 1 i _ _ h2).1, (hr 1 i _ _ h2).2,
    (hr 2 i _ _ h3).1, (hr 2 i _ _ h3).2, (hr 3 i _ _ h4).1, (hr 3 i _ _ h4).2,
    (hr 4 i _ _ h5).1, (hr 4 i _ _ h5).2, (hr 5 i _ _ h6).1, (hr 5 i _ _ h6).2,
    (hr 6 i _ _ (by norm_num)).1, (hr 6 i _ _ (by norm_num)).2,
    (hr 7 i _ _ (by norm_num)).1, (hr 7 i _ _ (by norm_num)).2,
    (hr 8 i _ _ (by norm_num)).1, (hr 8 i _ _ (by norm_num)).2,
    (hr 9 i _ _ h10).1, (hr 9 i _ _ h10).2,
    (hr 10 i _ _ h11).1, (hr 10 i _ _ h11).2⟩

/-- A concrete valid random source: always answers the low bound. -/
def randLo : RandSource := fun _ _ lo _ => lo

/-- Witness for `dummy_daily_window_and_ranges` at the concrete
imperial profile, `today = 0` and the low-bound random source,
inspecting row 0. -/
theorem dummy_daily_window_and_ranges_witness :
    (dummyDaily "imperial" 0 randLo).length = 38 ∧
      (((dummyDaily "imperial" 0 randLo).getD 0 default).date = 0 - 31 + (0 : ℕ) ∧
        RowInRanges "imperial" ((dummyDaily "imperial" 0 randLo).getD 0 default)) :=
  ⟨(dummy_daily_window_and_ranges "imperial" 0 randLo
      (fun _ _ lo _ h => ⟨le_refl lo, h⟩)).1,
    (dummy_daily_window_and_ranges "imperial" 0 randLo
      (fun _ _ lo _ h => ⟨le_refl lo, h⟩)).2 0 (by norm_num)⟩

/-- Claim C10: in every record set the synthetic fallback produces,
`wind_speed_10m_min ≤ wind_speed_10m_max` holds for every row, because
the minimum is drawn from `[0, w_lo]` and the maximum from
`[w_lo, 1.5·w_hi]` where `(w_lo, w_hi)` is the unit-specific wind range
— no analogous ordering is enforced between the temperature fields. -/
theorem dummy_wind_min_le_max (us : String) (today : ℤ) (rand : RandSource)
    (hr : ValidRand rand) :
    ∀ r ∈ dummyDaily us today rand,
      r.wind_speed_10m_min ≤ r.wind_speed_10m_max := by
  intro r hrm
  unfold dummyDaily at hrm
  simp only [List.mem_map, List.mem_range] at hrm
  obtain ⟨i, hi, rfl⟩ := hrm
  have hw : (0 : ℚ) ≤ (windRange us).1 ∧
      (windRange us).1 ≤ (windRange us).2 * (3 / 2) := by
    unfold windRange
    by_cases h : us = "imperial" <;> simp [h] <;> norm_num
  have hmin := (hr 4 i 0 (windRange us).1 hw.1).2
  have hmax := (hr 5 i (windRange us).1 ((windRange us).2 * (3 / 2)) hw.2).1
  exact le_trans hmin hmax

theorem getD_zero_mem {α : Type} [Inhabited α] (l : List α) (h : l.length = 38) :
    l.getD 0 default ∈ l := by
  cases l with
  | nil => simp at h
  | cons a t => simp [List.getD]

/-- Witness for `dummy_wind_min_le_max` at row 0 of the concrete
imperial low-bound instantiation. -/
theorem dummy_wind_min_le_max_witness :
    ((dummyDaily "imperial" 0 randLo).getD 0 default).wind_speed_10m_min ≤
      ((dummyDaily "imperial" 0 randLo).getD 0 default).wind_speed_10m_max :=
  dummy_wind_min_le_max "imperial" 0 randLo (fun _ _ lo _ h => ⟨le_refl lo, h⟩) _
    (getD_zero_mem _ (dummyDaily_length "imperial" 0 randLo))

/-! ## Claims C8 and C9: decode rounding and the size invariant -/

theorem is2dp_round2 (q : ℚ) : Is2dp (round2 q) := ⟨roundHalfEven (q * 100), rfl⟩

theorem dateRangeLeft_length (t te iv : ℤ) :
    (dateRangeLeft t te iv).length = rangeCount t te iv := by
  simp only [dateRangeLeft, List.length_map, List.length_range]

theorem map_getD_range (l : List ℚ) :
    (List.range l.length).map (fun i => l.getD i 0) = l := by
  apply List.ext_getElem?
  intro n
  by_cases h : n < l.length
  · simp [List.getElem?_map, List.getElem?_range, h, List.getD,
      List.get?_eq_getElem?, List.getElem?_eq_getElem h]
  · simp [List.getElem?_map, List.getElem?_range, h,
      List.getElem?_eq_none (le_of_not_lt h)]
    omega

/-- The eleven per-variable array lengths all equal the window length
`(end − start) / interval` computed by `pd.date_range`. -/
def DailyLengthsMatch (rd : RawDaily) : Prop :=
  rd.temperature_2m_max.length = rangeCount rd.time rd.timeEnd rd.interval ∧
    rd.temperature_2m_min.length = rangeCount rd.time rd.timeEnd rd.interval ∧
    rd.temperature_2m_mean.length = rangeCount rd.time rd.timeEnd rd.interval ∧
    rd.wind_speed_10m_mean.length = rangeCount rd.time rd.timeEnd rd.interval ∧
    rd.wind_speed_10m_min.length = rangeCount rd.time rd.timeEnd rd.interval ∧
    rd.wind_speed_10m_max.length = rangeCount rd.time rd.timeEnd rd.interval ∧
    rd.relative_humidity_2m_mean.length = rangeCount rd.time rd.timeEnd rd.interval ∧
    rd.relative_humidity_2m_max.length = rangeCount rd.time rd.timeEnd rd.interval ∧
    rd.relative_humidity_2m_min.length = rangeCount rd.time rd.timeEnd rd.interval ∧
    rd.precipitation_sum.length = rangeCount rd.time rd.timeEnd rd.interval ∧
    rd.rain_sum.length = rangeCount rd.time rd.timeEnd rd.interval

instance (rd : RawDaily) : Decidable (DailyLengthsMatch rd) := by
  unfold DailyLengthsMatch
  infer_instance

theorem decodeDaily_guard (rd : RawDaily) :
    decodeDaily rd =
      if DailyLengthsMatch rd then
        Except.ok ((List.range (rangeCount rd.time rd.timeEnd rd.interval)).map fun i =>
          { date := (dateRangeLeft rd.time rd.timeEnd rd.interval).getD i 0
            temperature_2m_max := round2 (rd.temperature_2m_max.getD i 0)
            temperature_2m_min := round2 (rd.temperature_2m_min.getD i 0)
            temperature_2m_mean := round2 (rd.temperature_2m_mean.getD i 0)
            wind_speed_10m_mean := round2 (rd.wind_speed_10m_mean.getD i 0)
            wind_speed_10m_min := round2 (rd.wind_speed_10m_min.getD i 0)
            wind_speed_10m_max := round2 (rd.wind_speed_10m_max.getD i 0)
            relative_humidity_2m_mean := round2 (rd.relative_humidity_2m_mean.getD i 0)
            relative_humidity_2m_max := round2 (rd.relative_humidity_2m_max.getD i 0)
            relative_humidity_2m_min := round2 (rd.relative_humidity_2m_min.getD i 0)
            precipitation_sum := round2 (rd.precipitation_sum.getD i 0)
            rain_sum := round2 (rd.rain_sum.getD i 0) })
      else Except.error DecodeError.decodeMismatch := by
  unfold decodeDaily
  refine if_congr ?_ ?_ rfl
  · unfold DailyLengthsMatch
    rw [dateRangeLeft_length]
  · rw [dateRangeLeft_length]

theorem decodeHourly_guard (rh : RawHourly) :
    decodeHourly rh =
      if rh.temperature_2m.length = rangeCount rh.time rh.timeEnd rh.interval then
        Except.ok ((List.range (rangeCount rh.time rh.timeEnd rh.interval)).map fun i =>
          { date := (dateRangeLeft rh.time rh.timeEnd rh.interval).getD i 0
            temperature_2m := rh.temperature_2m.getD i 0 })
      else Except.error DecodeError.decodeMismatch := by
  unfold decodeHourly
  refine if_congr ?_ ?_ rfl
  · rw [dateRangeLeft_length]
  · rw [dateRangeLeft_length]

/-- Claim C8 (amended): every numeric field of every DailyRecord decoded
from a provider response is rounded to 2 decimal places, and decoded
hourly temperatures are exactly the provider's values, unrounded.  The
records produced by the synthetic fallback, however, are NOT rounded —
see the counterexample. -/
theorem decode_rounds_daily_leaves_hourly (rd : RawDaily) (rows : List DailyRow)
    (rh : RawHourly) (hrows : List HourlyRow)
    (hd : decodeDaily rd = Except.ok rows)
    (hh : decodeHourly rh = Except.ok hrows) :
    (∀ r ∈ rows,
      Is2dp r.temperature_2m_max ∧ Is2dp r.temperature_2m_min ∧
        Is2dp r.temperature_2m_mean ∧ Is2dp r.wind_speed_10m_mean ∧
        Is2dp r.wind_speed_10m_min ∧ Is2dp r.wind_speed_10m_max ∧
        Is2dp r.relative_humidity_2m_mean ∧ Is2dp r.relative_humidity_2m_max ∧
        Is2dp r.relative_humidity_2m_min ∧ Is2dp r.precipitation_sum ∧
        Is2dp r.rain_sum) ∧
      hrows.map (fun r => r.temperature_2m) = rh.temperature_2m := by
  rw [decodeDaily_guard] at hd
  rw [decodeHourly_guard] at hh
  constructor
  · by_cases hc : DailyLengthsMatch rd
    · rw [if_pos hc] at hd
      injection hd with hd
      subst hd
      intro r hr
      simp only [List.mem_map, List.mem_range] at hr
      obtain ⟨i, hi, rfl⟩ := hr
      exact ⟨is2dp_round2 _, is2dp_round2 _, is2dp_round2 _, is2dp_round2 _,
        is2dp_round2 _, is2dp_round2 _, is2dp_round2 _, is2dp_round2 _,
        is2dp_round2 _, is2dp_round2 _, is2dp_round2 _⟩
    · rw [if_neg hc] at hd
      exact absurd hd (by simp)
  · by_cases hc : rh.temperature_2m.length = rangeCount rh.time rh.timeEnd rh.interval
    · rw [if_pos hc] at hh
      injection hh with hh
      subst hh
      rw [List.map_map]
      have := map_getD_range rh.temperature_2m
      rw [hc] at this
      exact this
    · rw [if_neg hc] at hh
      exact absurd hh (by simp)

/-- A random source that answers a third above the low bound — a
legitimate uniform sample, since every range the fallback uses is wider
than 1/3. -/
def randThird : RandSource := fun _ _ lo _ => lo + 1 / 3

/-- Claim C8 counterexample: the synthetic fallback does not round.
With the `randThird` source, row 0 of the imperial fallback carries
`temperature_2m_max = 60 + 1/3` — inside the declared range `[60, 90]`,
yet not a 2-decimal-place value, refuting the claim that every produced
DailyRecord field is rounded to 2 decimal places. -/
theorem dummy_not_rounded_counterexample :
    ((dummyDaily "imperial" 0 randThird).getD 0 default).temperature_2m_max =
        60 + 1 / 3 ∧
      (60 : ℚ) ≤ 60 + 1 / 3 ∧ (60 + 1 / 3 : ℚ) ≤ 90 ∧
      ¬ Is2dp (60 + 1 / 3) := by
  refine ⟨?_, by norm_num, by norm_num, ?_⟩
  · rw [dummyDaily_getD "imperial" 0 randThird 0 (by norm_num)]
    norm_num [randThird, tempMaxRange]
  · rintro ⟨n, hn⟩
    have h2 : (18100 : ℚ) = 3 * n := by
      field_simp at hn
      linarith
    have h3 : (18100 : ℤ) = 3 * n := by exact_mod_cast h2
    omega

/-- Claim C9: a provider payload in which some per-variable value-array
length — any of the eleven daily arrays or the hourly temperature array
— differs from its block's window length `(end − start) / interval`
makes the decode step fail with the mismatch error and emit no records,
while a conforming payload decodes to exactly one row per window slot in
each block; under the provider's invariant (positive interval dividing
the window span) that window length is exactly
`(end − start) / interval`. -/
theorem decode_mismatch_and_row_count (rd : RawDaily) (rh : RawHourly) :
    (¬ DailyLengthsMatch rd →
        decodeDaily rd = Except.error DecodeError.decodeMismatch) ∧
      (∀ rows, decodeDaily rd = Except.ok rows →
        rows.length = rangeCount rd.time rd.timeEnd rd.interval) ∧
      (rh.temperature_2m.length ≠ rangeCount rh.time rh.timeEnd rh.interval →
        decodeHourly rh = Except.error DecodeError.decodeMismatch) ∧
      (∀ hrows, decodeHourly rh = Except.ok hrows →
        hrows.length = rangeCount rh.time rh.timeEnd rh.interval) ∧
      (∀ t te iv : ℤ, 0 < iv → iv ∣ te - t →
        rangeCount t te iv = ((te - t) / iv).toNat) := by
  refine ⟨fun hm => ?_, fun rows hrows => ?_, fun hm2 => ?_, fun hrows2 hh => ?_,
    fun t te iv hpos hdvd => ?_⟩
  · rw [decodeDaily_guard, if_neg hm]
  · rw [decodeDaily_guard] at hrows
    by_cases hc : DailyLengthsMatch rd
    · rw [if_pos hc] at hrows
      injection hrows with hrows
      subst hrows
      simp
    · rw [if_neg hc] at hrows
      exact absurd hrows (by simp)
  · rw [decodeHourly_guard, if_neg hm2]
  · rw [decodeHourly_guard] at hh
    by_cases hc : rh.temperature_2m.length = rangeCount rh.time rh.timeEnd rh.interval
    · rw [if_pos hc] at hh
      injection hh with hh
      subst hh
      simp
    · rw [if_neg hc] at hh
      exact absurd hh (by simp)
  · obtain ⟨q, hq⟩ := hdvd
    unfold rangeCount
    rw [if_neg (not_le.mpr hpos), hq,
      Int.mul_ediv_cancel_left q (ne_of_gt hpos)]
    obtain ⟨B, hB⟩ : ∃ B : ℕ, iv = (B : ℤ) :=
      ⟨iv.toNat, (Int.toNat_of_nonneg (le_of_lt hpos)).symm⟩
    have hBpos : 0 < B := by
      rw [hB] at hpos
      exact_mod_cast hpos
    by_cases hqn : 0 ≤ q
    · obtain ⟨Q, hQ⟩ : ∃ Q : ℕ, q = (Q : ℤ) :=
        ⟨q.toNat, (Int.toNat_of_nonneg hqn).symm⟩
      rw [hB, hQ,
        show ((B : ℤ) * (Q : ℤ)) = ((B * Q : ℕ) : ℤ) by push_cast; ring,
        Int.toNat_natCast, Int.toNat_natCast, Int.toNat_natCast]
      cases Q with
      | zero =>
        simp [Nat.div_eq_of_lt (Nat.sub_lt hBpos Nat.one_pos)]
      | succ Q2 =>
        rw [Nat.add_comm, Nat.add_mul_div_left _ _ hBpos,
          Nat.div_eq_of_lt (Nat.sub_lt hBpos Nat.one_pos), Nat.zero_add]
    · have hneg : q < 0 := not_le.mp hqn
      have h1 : iv * q < 0 := mul_neg_of_pos_of_neg hpos hneg
      rw [Int.toNat_of_nonpos (le_of_lt h1), Int.toNat_of_nonpos (le_of_lt hneg)]
      rw [hB, Int.toNat_natCast]
      simp [Nat.div_eq_of_lt (Nat.sub_lt hBpos Nat.one_pos)]

/-- A one-day daily payload carrying the unrounded value 1/3 in every
variable array. -/
def rdThird : RawDaily :=
  { time := 0, timeEnd := 86400, interval := 86400
    temperature_2m_max := [1 / 3], temperature_2m_min := [1 / 3]
    temperature_2m_mean := [1 / 3], wind_speed_10m_mean := [1 / 3]
    wind_speed_10m_min := [1 / 3], wind_speed_10m_max := [1 / 3]
    relative_humidity_2m_mean := [1 / 3], relative_humidity_2m_max := [1 / 3]
    relative_humidity_2m_min := [1 / 3], precipitation_sum := [1 / 3]
    rain_sum := [1 / 3] }

/-- The row `decodeDaily` produces from `rdThird`: every value rounded
to 0.33. -/
def rowThird : DailyRow :=
  { date := 0, temperature_2m_max := 33 / 100, temperature_2m_min := 33 / 100
    temperature_2m_mean := 33 / 100, wind_speed_10m_mean := 33 / 100
    wind_speed_10m_min := 33 / 100, wind_speed_10m_max := 33 / 100
    relative_humidity_2m_mean := 33 / 100, relative_humidity_2m_max := 33 / 100
    relative_humidity_2m_min := 33 / 100, precipitation_sum := 33 / 100
    rain_sum := 33 / 100 }

/-- A two-sample hourly payload with unrounded temperatures. -/
def rhThirds : RawHourly :=
  { time := 0, timeEnd := 7200, interval := 3600, temperature_2m := [1 / 3, 2 / 3] }

theorem decodeDaily_rdThird : decodeDaily rdThird = Except.ok [rowThird] := by
  rw [decodeDaily_guard, if_pos (by decide)]
  have h1 : rangeCount rdThird.time rdThird.timeEnd rdThird.interval = 1 := by decide
  rw [h1, (by decide : List.range 1 = [0])]
  simp only [List.map_cons, List.map_nil]
  have hq : round2 (1 / 3 : ℚ) = 33 / 100 := by norm_num [round2, roundHalfEven]
  have hdate :
      (dateRangeLeft rdThird.time rdThird.timeEnd rdThird.interval).getD 0 0 = 0 := by
    decide
  rw [hdate]
  simp only [rdThird, List.getD_cons_zero, hq]
  rfl

theorem decodeHourly_rhThirds :
    decodeHourly rhThirds =
      Except.ok ([⟨0, 1 / 3⟩, ⟨3600, 2 / 3⟩] : List HourlyRow) := by
  rw [decodeHourly_guard, if_pos (by decide)]
  have h1 : rangeCount rhThirds.time rhThirds.timeEnd rhThirds.interval = 2 := by decide
  rw [h1, (by decide : List.range 2 = [0, 1])]
  simp only [List.map_cons, List.map_nil]
  have hd0 :
      (dateRangeLeft rhThirds.time rhThirds.timeEnd rhThirds.interval).getD 0 0 = 0 := by
    decide
  have hd1 :
      (dateRangeLeft rhThirds.time rhThirds.timeEnd rhThirds.interval).getD 1 0 =
        3600 := by
    decide
  rw [hd0, hd1]
  simp only [rhThirds, List.getD_cons_zero, List.getD_cons_succ]

/-- Witness for `decode_rounds_daily_leaves_hourly` at the concrete
one-row payload `rdThird` (values 1/3, rounded to 0.33) and the hourly
payload `rhThirds` (copied unrounded). -/
theorem decode_rounds_daily_leaves_hourly_witness :
    (Is2dp rowThird.temperature_2m_max ∧ Is2dp rowThird.temperature_2m_min ∧
        Is2dp rowThird.temperature_2m_mean ∧ Is2dp rowThird.wind_speed_10m_mean ∧
        Is2dp rowThird.wind_speed_10m_min ∧ Is2dp rowThird.wind_speed_10m_max ∧
        Is2dp rowThird.relative_humidity_2m_mean ∧
        Is2dp rowThird.relative_humidity_2m_max ∧
        Is2dp rowThird.relative_humidity_2m_min ∧ Is2dp rowThird.precipitation_sum ∧
        Is2dp rowThird.rain_sum) ∧
      ([⟨0, 1 / 3⟩, ⟨3600, 2 / 3⟩] : List HourlyRow).map (fun r => r.temperature_2m) =
        rhThirds.temperature_2m :=
  ⟨(decode_rounds_daily_leaves_hourly rdThird [rowThird] rhThirds
        ([⟨0, 1 / 3⟩, ⟨3600, 2 / 3⟩] : List HourlyRow)
        decodeDaily_rdThird decodeHourly_rhThirds).1
      rowThird (List.mem_singleton.mpr rfl),
    (decode_rounds_daily_leaves_hourly rdThird [rowThird] rhThirds
        ([⟨0, 1 / 3⟩, ⟨3600, 2 / 3⟩] : List HourlyRow)
        decodeDaily_rdThird decodeHourly_rhThirds).2⟩

/-- A payload whose single non-empty value array disagrees with its
empty window (`time = timeEnd`). -/
def rdMismatch : RawDaily :=
  { time := 0, timeEnd := 0, interval := 86400
    temperature_2m_max := [1 / 2], temperature_2m_min := []
    temperature_2m_mean := [], wind_speed_10m_mean := []
    wind_speed_10m_min := [], wind_speed_10m_max := []
    relative_humidity_2m_mean := [], relative_humidity_2m_max := []
    relative_humidity_2m_min := [], precipitation_sum := []
    rain_sum := [] }

/-- A conforming payload with an empty window. -/
def rdEmpty : RawDaily :=
  { time := 0, timeEnd := 0, interval := 86400
    temperature_2m_max := [], temperature_2m_min := []
    temperature_2m_mean := [], wind_speed_10m_mean := []
    wind_speed_10m_min := [], wind_speed_10m_max := []
    relative_humidity_2m_mean := [], relative_humidity_2m_max := []
    relative_humidity_2m_min := [], precipitation_sum := []
    rain_sum := [] }

/-- An hourly payload whose non-empty temperature array disagrees with
its empty window (`time = timeEnd`). -/
def rhMismatch : RawHourly :=
  { time := 0, timeEnd := 0, interval := 3600, temperature_2m := [1 / 2] }

/-- A conforming hourly payload with an empty window. -/
def rhEmpty : RawHourly :=
  { time := 0, timeEnd := 0, interval := 3600, temperature_2m := [] }

/-- Witness for `decode_mismatch_and_row_count`: the mismatched daily
and hourly payloads decode to the mismatch error; the conforming empty
payloads decode to row sets whose lengths are their window lengths; and
a divisible one-day window has length `(end − start) / interval`. -/
theorem decode_mismatch_and_row_count_witness :
    decodeDaily rdMismatch = Except.error DecodeError.decodeMismatch ∧
      ([] : List DailyRow).length =
        rangeCount rdEmpty.time rdEmpty.timeEnd rdEmpty.interval ∧
      decodeHourly rhMismatch = Except.error DecodeError.decodeMismatch ∧
      ([] : List HourlyRow).length =
        rangeCount rhEmpty.time rhEmpty.timeEnd rhEmpty.interval ∧
      rangeCount 0 86400 86400 = (((86400 : ℤ) - 0) / 86400).toNat :=
  ⟨(decode_mismatch_and_row_count rdMismatch rhMismatch).1 (by decide),
    (decode_mismatch_and_row_count rdEmpty rhEmpty).2.1 []
      (by rw [decodeDaily_guard, if_pos (by decide)]; rfl),
    (decode_mismatch_and_row_count rdMismatch rhMismatch).2.2.1 (by decide),
    (decode_mismatch_and_row_count rdEmpty rhEmpty).2.2.2.1 []
      (by rw [decodeHourly_guard, if_pos (by decide)]; rfl),
    (decode_mismatch_and_row_count rdEmpty rhEmpty).2.2.2.2 0 86400 86400
      (by decide) ⟨1, by decide⟩⟩

/-! ## Claim C5: cache round trip -/

/-- Well-formed daily records: every numeric field already carries at
most 2 decimal places — the precision at which daily records are stored
(cf. the decode rounding). -/
def WellFormedDaily (rows : List DailyRow) : Prop :=
  ∀ r ∈ rows,
    Is2dp r.temperature_2m_max ∧ Is2dp r.temperature_2m_min ∧
      Is2dp r.temperature_2m_mean ∧ Is2dp r.wind_speed_10m_mean ∧
      Is2dp r.wind_speed_10m_min ∧ Is2dp r.wind_speed_10m_max ∧
      Is2dp r.relative_humidity_2m_mean ∧ Is2dp r.relative_humidity_2m_max ∧
      Is2dp r.relative_humidity_2m_min ∧ Is2dp r.precipitation_sum ∧
      Is2dp r.rain_sum

theorem loadFile_saveFile_same (name : String) (c : FileData) (fs : FS) :
    loadFile name (saveFile name c fs) = some c := by
  unfold loadFile saveFile
  rw [List.find?_cons_of_pos _ (by simp)]
  rfl

theorem find?_filter_other (name name2 : String) (fs : FS) (h : ¬ name2 = name) :
    List.find? (fun e => e.1 == name) (fs.filter fun e => e.1 != name2) =
      List.find? (fun e => e.1 == name) fs := by
  induction fs with
  | nil => rfl
  | cons e fs ih =>
    by_cases he : e.1 = name2
    · have hb : (name2 == name) = false := beq_eq_false_iff_ne.mpr h
      simp [List.filter_cons, he, List.find?_cons, hb, ih]
    · by_cases hpe : e.1 = name
      · have hnn : ¬ name = name2 := fun hx => he (hpe.trans hx)
        simp [List.filter_cons, he, List.find?_cons, hpe, hnn]
      · simp [List.filter_cons, he, List.find?_cons, hpe, ih]

theorem loadFile_saveFile_other (name name2 : String) (c : FileData) (fs : FS)
    (h : ¬ name2 = name) :
    loadFile name (saveFile name2 c fs) = loadFile name fs := by
  unfold loadFile saveFile
  rw [List.find?_cons_of_neg _ (by simp [h]), find?_filter_other name name2 fs h]

theorem dailyFileName_ne_hourlyFileName (us todayS : String) :
    dailyFileName us todayS ≠ hourlyFileName us todayS := by
  intro h
  have hd : (dailyFileName us todayS).data = (hourlyFileName us todayS).data := by
    rw [h]
  have e1 : "_daily_data_".data =
      ['_', 'd', 'a', 'i', 'l', 'y', '_', 'd', 'a', 't', 'a', '_'] := rfl
  have e2 : "_hourly_data_".data =
      ['_', 'h', 'o', 'u', 'r', 'l', 'y', '_', 'd', 'a', 't', 'a', '_'] := rfl
  unfold dailyFileName hourlyFileName at hd
  simp only [String.data_append, e1, e2, List.append_assoc] at hd
  have h2 := List.append_cancel_left hd
  have h3 := congrArg (fun l : List Char => l.get? 1) h2
  simp only [List.cons_append, List.get?] at h3
  exact absurd (Option.some.inj h3) (by decide)

/-- Claim C5: saving a daily and an hourly record set under today's
(unit system, granularity, fetch date) key — the two `to_csv` writes of
`get_weather_data` — and loading them back through `update_dashboard`'s
reads of the same file names returns record sets equal to the ones
saved, for any well-formed daily records (fields at the stored 2-decimal
precision) and any prior directory contents. -/
theorem cache_round_trip (us todayS : String) (drows : List DailyRow)
    (hrows : List HourlyRow) (fs : FS) (hwf : WellFormedDaily drows) :
    loadDailyDash us todayS
        (saveFile (dailyFileName us todayS) (FileData.daily drows)
          (saveFile (hourlyFileName us todayS) (FileData.hourly hrows) fs)) =
        some drows ∧
      loadHourlyDash us todayS
        (saveFile (dailyFileName us todayS) (FileData.daily drows)
          (saveFile (hourlyFileName us todayS) (FileData.hourly hrows) fs)) =
        some hrows := by
  constructor
  · unfold loadDailyDash
    rw [loadFile_saveFile_same]
  · unfold loadHourlyDash
    rw [loadFile_saveFile_other _ _ _ _ (dailyFileName_ne_hourlyFileName us todayS),
      loadFile_saveFile_same]

/-- Witness for `cache_round_trip`: the concrete imperial key of
2026-10-12, the one-row 2-decimal daily set `[rowThird]` and a two-row
hourly set, saved into an empty directory. -/
theorem cache_round_trip_witness :
    loadDailyDash "imperial" "2026-10-12"
        (saveFile (dailyFileName "imperial" "2026-10-12") (FileData.daily [rowThird])
          (saveFile (hourlyFileName "imperial" "2026-10-12")
            (FileData.hourly ([⟨0, 1 / 3⟩, ⟨3600, 2 / 3⟩] : List HourlyRow)) [])) =
        some [rowThird] ∧
      loadHourlyDash "imperial" "2026-10-12"
        (saveFile (dailyFileName "imperial" "2026-10-12") (FileData.daily [rowThird])
          (saveFile (hourlyFileName "imperial" "2026-10-12")
            (FileData.hourly ([⟨0, 1 / 3⟩, ⟨3600, 2 / 3⟩] : List HourlyRow)) [])) =
        some ([⟨0, 1 / 3⟩, ⟨3600, 2 / 3⟩] : List HourlyRow) :=
  cache_round_trip "imperial" "2026-10-12" [rowThird]
    ([⟨0, 1 / 3⟩, ⟨3600, 2 / 3⟩] : List HourlyRow) []
    (by
      intro r hr
      rw [List.mem_singleton] at hr
      subst hr
      exact ⟨⟨33, by norm_num [rowThird]⟩, ⟨33, by norm_num [rowThird]⟩,
        ⟨33, by norm_num [rowThird]⟩, ⟨33, by norm_num [rowThird]⟩,
        ⟨33, by norm_num [rowThird]⟩, ⟨33, by norm_num [rowThird]⟩,
        ⟨33, by norm_num [rowThird]⟩, ⟨33, by norm_num [rowThird]⟩,
        ⟨33, by norm_num [rowThird]⟩, ⟨33, by norm_num [rowThird]⟩,
        ⟨33, by norm_num [rowThird]⟩⟩)

end WeatherApp
